import Mathlib

/-!
Shallow embedding of the TPMS BLE advertisement decoding core
(`custom_components/tpms_ble/tpms_parser/parser.py`).

Bytes are modelled as `List Nat` (each element a byte value), Python
numbers as exact rationals `ℚ`, Python `round` (banker's rounding,
round-half-to-even) as `pyRound`, and the logger as a list of emitted
log levels.  Code that can raise (out-of-range byte indexing in
`_process_tpms_c`) is modelled in `Except Fault`.
-/

/-- Severity of a log record emitted by the parser. -/
inductive LogLevel where
  | debug
  | info
  | error
deriving DecidableEq, Repr

/-- A Python exception escaping the parser (only out-of-range indexing
into `bytes` can occur). -/
inductive Fault where
  | indexError
deriving DecidableEq, Repr

/-- The decoded reading assembled by `_update_sensors`: each field is
`none` exactly when the corresponding sensor is not updated. -/
structure Reading where
  pressure : Option ℚ
  battery : Option ℤ
  temperature : Option ℚ
  alarm : Option Bool
  voltage : Option ℚ
deriving DecidableEq, Repr

/-- `_update_sensors(address, pressure, battery_pct, temperature, alarm,
voltage)`: updates exactly the sensors whose value is not `None`.  The
address only feeds the device title, not the reading. -/
def updateSensors (pressure : Option ℚ) (battery : Option ℤ)
    (temperature : Option ℚ) (alarm : Option Bool) (voltage : Option ℚ) :
    Reading :=
  ⟨pressure, battery, temperature, alarm, voltage⟩

/-- Python `round` with no `ndigits`: round half to even, returning an
integer. -/
def pyRound (q : ℚ) : ℤ :=
  if q - (⌊q⌋ : ℚ) < 1/2 then ⌊q⌋
  else if 1/2 < q - (⌊q⌋ : ℚ) then ⌊q⌋ + 1
  else if ⌊q⌋ % 2 = 0 then ⌊q⌋ else ⌊q⌋ + 1

/-- Python `round(q, 2)`. -/
def pyRound2 (q : ℚ) : ℚ := (pyRound (q * 100) : ℚ) / 100

/-- Python `round(q, 3)`. -/
def pyRound3 (q : ℚ) : ℚ := (pyRound (q * 1000) : ℚ) / 1000

/-- Two's-complement reinterpretation of one byte, as in
`unpack("b", ...)` and the explicit `if temperature >= 2**7:
temperature -= 2**8` in `_process_tpms_b`. -/
def toSigned8 (b : Nat) : ℤ :=
  if 2 ^ 7 ≤ b then (b : ℤ) - 2 ^ 8 else (b : ℤ)

/-- Two's-complement reinterpretation of a 32-bit value
(`unpack("=i", ...)`). -/
def toSigned32 (n : Nat) : ℤ :=
  if 2 ^ 31 ≤ n then (n : ℤ) - 2 ^ 32 else (n : ℤ)

/-- Little-endian 16-bit field (`unpack("<H", ...)`). -/
def le16 (b0 b1 : Nat) : Nat := b0 + 256 * b1

/-- Little-endian 32-bit field (`unpack("=i", ...)`, unsigned part). -/
def le32 (b0 b1 b2 b3 : Nat) : Nat :=
  b0 + 256 * b1 + 65536 * b2 + 16777216 * b3

/-- The fixed discharge table of `battery_percentage`, descending by
voltage. -/
def discharge_curve : List (ℚ × ℤ) :=
  [(33/10, 100), (305/100, 97), (294/100, 91), (29/10, 75),
   (285/100, 25), (28/10, 17), (26/10, 0)]

/-- The `for i in range(len(discharge_curve) - 1)` loop of
`battery_percentage`: walk adjacent pairs `(V2,P2), (V1,P1)` and return
`int(round(P1 + ((v - V1) / (V2 - V1)) * (P2 - P1)))` for the first
bracket with `V1 < v <= V2`; falling through returns 0. -/
def curveLoop (v : ℚ) : List (ℚ × ℤ) → ℤ
  | (V2, P2) :: (V1, P1) :: rest =>
      if V1 < v ∧ v ≤ V2 then
        pyRound ((P1 : ℚ) + (v - V1) / (V2 - V1) * ((P2 : ℚ) - (P1 : ℚ)))
      else curveLoop v ((V1, P1) :: rest)
  | _ => 0

/-- `battery_percentage(voltage)`. -/
def battery_percentage (voltage : ℚ) : ℤ :=
  if 33/10 ≤ voltage then 100
  else if voltage < 26/10 then 0
  else curveLoop voltage discharge_curve

/-- `data[i]` on Python `bytes`: raises `IndexError` out of range. -/
def byteAt (data : List Nat) (i : Nat) : Except Fault Nat :=
  match data[i]? with
  | some b => .ok b
  | none => .error .indexError

/-- `_process_tpms_a(address, local_name, data)`: emits the reading (if
any) and the log records. -/
def processTpmsA (data : List Nat) : Option Reading × List LogLevel :=
  if data.length ≠ 16 then (none, [.debug, .error])
  else
    let pressureRaw : ℤ :=
      toSigned32 (le32 (data.getD 6 0) (data.getD 7 0) (data.getD 8 0) (data.getD 9 0))
    let temperatureRaw : ℤ :=
      toSigned32 (le32 (data.getD 10 0) (data.getD 11 0) (data.getD 12 0) (data.getD 13 0))
    let battery : ℤ := toSigned8 (data.getD 14 0)
    let alarm : Bool := data.getD 15 0 ≠ 0
    let pressure : ℚ := (pressureRaw : ℚ) / 100000
    let temperature : ℚ := (temperatureRaw : ℚ) / 100
    (some (updateSensors (some pressure) (some battery) (some temperature)
      (some alarm) none), [.debug])

/-- `comp_hex[2:4]` of `_process_tpms_b`: the hex string of the (16-bit)
company id is split into two byte pairs, the pairs are swapped, and the
second pair of the swapped string — i.e. the high byte of the original
id — is kept.  Modelled arithmetically for ids below 2^16. -/
def swappedCompHex (companyId : Nat) : Nat := companyId / 256 % 256

/-- `_process_tpms_b(address, local_name, data, company_id)`.  The
length check is on `len(data.hex())`, i.e. twice the byte length. -/
def processTpmsB (data : List Nat) (companyId : Nat) :
    Option Reading × List LogLevel :=
  if 2 * data.length ≠ 10 then (none, [.debug, .error])
  else
    let voltage : ℚ := (swappedCompHex companyId : ℚ) / 10
    let temperature : ℤ := toSigned8 (data.getD 0 0)
    let psiPressure : ℚ :=
      ((data.getD 1 0 * 256 + data.getD 2 0 : ℕ) - 145 : ℚ) / 10
    let pressure : ℚ := pyRound3 (psiPressure * (689476 / 10000000))
    let battery : ℤ := battery_percentage voltage
    (some (updateSensors (some pressure) (some battery)
      (some (temperature : ℚ)) none (some voltage)), [.debug])

/-- `_process_tpms_c(address, local_name, data)`: Michelin frames.  Note
that `data[0]` and `data[1]` are read before any length validation, so
payloads of length 0 or 1 raise `IndexError`. -/
def processTpmsC (data : List Nat) : Except Fault (Option Reading × List LogLevel) :=
  match byteAt data 0 with
  | .error e => .error e
  | .ok productType =>
    if productType ≠ 1 then .ok (none, [.debug, .debug])
    else
      match byteAt data 1 with
      | .error e => .error e
      | .ok frameType =>
        if frameType = 2 then
          if data.length ≠ 12 then .ok (none, [.debug, .error])
          else
            let rawTemp := data.getD 2 0
            let rawVolt := data.getD 3 0
            let temperature : ℤ := (rawTemp : ℤ) - 60
            let voltage : ℚ := pyRound2 ((rawVolt : ℚ) / 100 + 1)
            .ok (some (updateSensors none (some (battery_percentage voltage))
              (some (temperature : ℚ)) none (some voltage)), [.debug])
        else if frameType = 4 then
          if data.length ≠ 14 then .ok (none, [.debug, .error])
          else
            let rawTemp := data.getD 2 0
            let rawVolt := data.getD 3 0
            let rawPress := le16 (data.getD 4 0) (data.getD 5 0)
            let temperature : ℤ := (rawTemp : ℤ) - 60
            let voltage : ℚ := pyRound2 ((rawVolt : ℚ) / 100 + 1)
            let pressure : ℚ := max 0 (pyRound2 ((rawPress : ℚ) / 1000) - 1)
            .ok (some (updateSensors (some pressure) (some (battery_percentage voltage))
              (some (temperature : ℚ)) none (some voltage)), [.debug])
        else if frameType = 5 then
          if data.length ≠ 14 then .ok (none, [.debug, .error])
          else
            let rawTemp := data.getD 2 0
            let rawVolt := data.getD 3 0
            let rawPress := le16 (data.getD 12 0) (data.getD 13 0)
            let temperature : ℤ := (rawTemp : ℤ) - 60
            let voltage : ℚ := pyRound2 ((rawVolt : ℚ) / 100 + 1)
            let pressure : ℚ := max 0 (pyRound2 ((rawPress : ℚ) / 1000) - 1)
            .ok (some (updateSensors (some pressure) (some (battery_percentage voltage))
              (some (temperature : ℚ)) none (some voltage)), [.debug])
        else if frameType = 6 then
          if data.length ≠ 12 then .ok (none, [.debug, .error])
          else
            let rawTemp := data.getD 2 0
            let rawVolt := data.getD 3 0
            let temperature : ℤ := (rawTemp : ℤ) - 60
            let voltage : ℚ := pyRound2 ((rawVolt : ℚ) / 100 + 1)
            .ok (some (updateSensors none (some (battery_percentage voltage))
              (some (temperature : ℚ)) none (some voltage)), [.debug])
        else if frameType = 12 then
          if data.length ≠ 17 then .ok (none, [.debug, .error])
          else
            let rawTemp := data.getD 2 0
            let rawVolt := data.getD 3 0
            let rawPress := le16 (data.getD 4 0) (data.getD 5 0)
            let temperature : ℤ := (rawTemp : ℤ) - 60
            let voltage : ℚ := pyRound2 ((rawVolt : ℚ) / 100 + 1)
            let pressure : ℚ := max 0 (pyRound2 ((rawPress : ℚ) / 1000) - 1)
            .ok (some (updateSensors (some pressure) (some (battery_percentage voltage))
              (some (temperature : ℚ)) none (some voltage)), [.debug])
        else .ok (none, [.debug, .info])

/-- The BLE advertisement fields consulted by `_start_update`.
`manufacturerEntries` keeps the (insertion-ordered) dict entries of
`service_info.manufacturer_data`. -/
structure Advertisement where
  address : String
  manufacturerEntries : List (Nat × List Nat)
  serviceUuids : List String

/-- The outcome of one `_start_update` call: the reading (if any), the
log records, and the manufacturer string set by
`set_device_manufacturer` (recording which decoder ran). -/
structure Outcome where
  reading : Option Reading
  logs : List LogLevel
  manufacturer : Option String
deriving DecidableEq, Repr

/-- The Michelin service UUID tested by the dispatcher. -/
def michelinUuid : String := "000027a5-0000-1000-8000-00805f9b34fb"

/-- `_start_update(service_info)`: dispatch on service UUIDs and the
first manufacturer-data entry. -/
def startUpdate (adv : Advertisement) : Except Fault Outcome :=
  match adv.manufacturerEntries with
  | [] => .ok ⟨none, [.debug], none⟩
  | (companyId, mfrData) :: _ =>
    if michelinUuid ∈ adv.serviceUuids then
      let res := processTpmsB mfrData companyId
      .ok ⟨res.1, .debug :: res.2, some "SYTPMS TypeB"⟩
    else if companyId = 256 then
      let res := processTpmsA mfrData
      .ok ⟨res.1, .debug :: res.2, some "TPMSII TypeA"⟩
    else if companyId = 2088 then
      match processTpmsC mfrData with
      | .error e => .error e
      | .ok res => .ok ⟨res.1, .debug :: res.2, some "Michelin"⟩
    else .ok ⟨none, [.debug, .debug], none⟩
theorem pyRound_bounds (q : ℚ) :
    q - 1/2 ≤ (pyRound q : ℚ) ∧ (pyRound q : ℚ) ≤ q + 1/2 := by
  have h1 : ((⌊q⌋ : ℤ) : ℚ) ≤ q := Int.floor_le q
  have h2 : q < (⌊q⌋ : ℚ) + 1 := Int.lt_floor_add_one q
  unfold pyRound
  split
  · exact ⟨by linarith, by linarith⟩
  · split
    · exact ⟨by push_cast; linarith, by push_cast; linarith⟩
    · split
      · exact ⟨by linarith, by linarith⟩
      · exact ⟨by push_cast; linarith, by push_cast; linarith⟩

theorem pyRound_mono {u v : ℚ} (h : u ≤ v) : pyRound u ≤ pyRound v := by
  by_contra hc
  push_neg at hc
  have hc' : pyRound v + 1 ≤ pyRound u := hc
  have bu := pyRound_bounds u
  have bv := pyRound_bounds v
  have hcast : ((pyRound v : ℤ) : ℚ) + 1 ≤ ((pyRound u : ℤ) : ℚ) := by
    exact_mod_cast hc'
  have huv : u = v := le_antisymm h (by linarith [bu.1, bu.2, bv.1, bv.2])
  subst huv
  omega

theorem pyRound_eq_low {q : ℚ} {n : ℤ} (h1 : (n : ℚ) ≤ q) (h2 : q < (n : ℚ) + 1/2) :
    pyRound q = n := by
  have hf : ⌊q⌋ = n := Int.floor_eq_iff.mpr ⟨h1, by linarith⟩
  unfold pyRound
  rw [hf, if_pos (by linarith)]

theorem pyRound_eq_high {q : ℚ} {n : ℤ}
    (h1 : (n : ℚ) - 1/2 < q) (h2 : q < (n : ℚ)) : pyRound q = n := by
  have hf : ⌊q⌋ = n - 1 := Int.floor_eq_iff.mpr ⟨by push_cast; linarith, by push_cast; linarith⟩
  unfold pyRound
  rw [hf, if_neg (by push_cast; linarith), if_pos (by push_cast; linarith)]
  omega

theorem pyRound_intCast (n : ℤ) : pyRound (n : ℚ) = n :=
  pyRound_eq_low (le_refl _) (by linarith)

theorem pyRound_le_bracket {x : ℚ} {P1 P2 : ℤ} (hl : (P1 : ℚ) ≤ x) (hr : x ≤ (P2 : ℚ)) :
    P1 ≤ pyRound x ∧ pyRound x ≤ P2 := by
  have b := pyRound_bounds x
  constructor
  · have h : (P1 : ℚ) < (pyRound x : ℚ) + 1 := by linarith
    exact Int.lt_add_one_iff.mp (by exact_mod_cast h)
  · have h : (pyRound x : ℚ) < (P2 : ℚ) + 1 := by linarith
    exact Int.lt_add_one_iff.mp (by exact_mod_cast h)

theorem curveLoop_cons_pos {v V1 V2 : ℚ} {P1 P2 : ℤ} {rest : List (ℚ × ℤ)}
    (h1 : V1 < v) (h2 : v ≤ V2) :
    curveLoop v ((V2, P2) :: (V1, P1) :: rest) =
      pyRound ((P1 : ℚ) + (v - V1) / (V2 - V1) * ((P2 : ℚ) - (P1 : ℚ))) := by
  rw [curveLoop, if_pos ⟨h1, h2⟩]

theorem curveLoop_cons_neg {v V1 V2 : ℚ} {P1 P2 : ℤ} {rest : List (ℚ × ℤ)}
    (h : ¬(V1 < v ∧ v ≤ V2)) :
    curveLoop v ((V2, P2) :: (V1, P1) :: rest) = curveLoop v ((V1, P1) :: rest) := by
  rw [curveLoop, if_neg h]
theorem bp_br1 {v : ℚ} (h1 : 305/100 < v) (h2 : v ≤ 33/10) :
    battery_percentage v = pyRound (97 + (v - 305/100) / (33/10 - 305/100) * (100 - 97)) := by
  rcases eq_or_lt_of_le h2 with he | hlt
  · subst he
    unfold battery_percentage
    rw [if_pos (le_refl _),
      show (97 + (33/10 - 305/100) / (33/10 - 305/100) * (100 - 97) : ℚ) = ((100 : ℤ) : ℚ) by
        norm_num,
      pyRound_intCast]
  · unfold battery_percentage
    rw [if_neg (by linarith), if_neg (by linarith)]
    unfold discharge_curve
    rw [curveLoop_cons_pos h1 h2]
    norm_num

theorem bp_br2 {v : ℚ} (h1 : 294/100 < v) (h2 : v ≤ 305/100) :
    battery_percentage v = pyRound (91 + (v - 294/100) / (305/100 - 294/100) * (97 - 91)) := by
  unfold battery_percentage
  rw [if_neg (by linarith), if_neg (by linarith)]
  unfold discharge_curve
  rw [curveLoop_cons_neg (by rintro ⟨ha, hb⟩; linarith), curveLoop_cons_pos h1 h2]
  norm_num

theorem bp_br3 {v : ℚ} (h1 : 29/10 < v) (h2 : v ≤ 294/100) :
    battery_percentage v = pyRound (75 + (v - 29/10) / (294/100 - 29/10) * (91 - 75)) := by
  unfold battery_percentage
  rw [if_neg (by linarith), if_neg (by linarith)]
  unfold discharge_curve
  rw [curveLoop_cons_neg (by rintro ⟨ha, hb⟩; linarith),
    curveLoop_cons_neg (by rintro ⟨ha, hb⟩; linarith), curveLoop_cons_pos h1 h2]
  norm_num

theorem bp_br4 {v : ℚ} (h1 : 285/100 < v) (h2 : v ≤ 29/10) :
    battery_percentage v = pyRound (25 + (v - 285/100) / (29/10 - 285/100) * (75 - 25)) := by
  unfold battery_percentage
  rw [if_neg (by linarith), if_neg (by linarith)]
  unfold discharge_curve
  rw [curveLoop_cons_neg (by rintro ⟨ha, hb⟩; linarith),
    curveLoop_cons_neg (by rintro ⟨ha, hb⟩; linarith),
    curveLoop_cons_neg (by rintro ⟨ha, hb⟩; linarith), curveLoop_cons_pos h1 h2]
  norm_num

theorem bp_br5 {v : ℚ} (h1 : 28/10 < v) (h2 : v ≤ 285/100) :
    battery_percentage v = pyRound (17 + (v - 28/10) / (285/100 - 28/10) * (25 - 17)) := by
  unfold battery_percentage
  rw [if_neg (by linarith), if_neg (by linarith)]
  unfold discharge_curve
  rw [curveLoop_cons_neg (by rintro ⟨ha, hb⟩; linarith),
    curveLoop_cons_neg (by rintro ⟨ha, hb⟩; linarith),
    curveLoop_cons_neg (by rintro ⟨ha, hb⟩; linarith),
    curveLoop_cons_neg (by rintro ⟨ha, hb⟩; linarith), curveLoop_cons_pos h1 h2]
  norm_num

theorem bp_br6 {v : ℚ} (h1 : 26/10 < v) (h2 : v ≤ 28/10) :
    battery_percentage v = pyRound (0 + (v - 26/10) / (28/10 - 26/10) * (17 - 0)) := by
  unfold battery_percentage
  rw [if_neg (by linarith), if_neg (by linarith)]
  unfold discharge_curve
  rw [curveLoop_cons_neg (by rintro ⟨ha, hb⟩; linarith),
    curveLoop_cons_neg (by rintro ⟨ha, hb⟩; linarith),
    curveLoop_cons_neg (by rintro ⟨ha, hb⟩; linarith),
    curveLoop_cons_neg (by rintro ⟨ha, hb⟩; linarith),
    curveLoop_cons_neg (by rintro ⟨ha, hb⟩; linarith), curveLoop_cons_pos h1 h2]
  norm_num

theorem bp_high {v : ℚ} (h : 33/10 ≤ v) : battery_percentage v = 100 := by
  unfold battery_percentage
  rw [if_pos h]

theorem bp_low {v : ℚ} (h : v ≤ 26/10) : battery_percentage v = 0 := by
  unfold battery_percentage
  rcases lt_or_eq_of_le h with hlt | he
  · rw [if_neg (by linarith), if_pos hlt]
  · subst he
    rw [if_neg (by norm_num), if_neg (by norm_num)]
    unfold discharge_curve
    rw [curveLoop_cons_neg (by rintro ⟨ha, hb⟩; linarith),
      curveLoop_cons_neg (by rintro ⟨ha, hb⟩; linarith),
      curveLoop_cons_neg (by rintro ⟨ha, hb⟩; linarith),
      curveLoop_cons_neg (by rintro ⟨ha, hb⟩; linarith),
      curveLoop_cons_neg (by rintro ⟨ha, hb⟩; linarith),
      curveLoop_cons_neg (by rintro ⟨ha, hb⟩; linarith)]
    rfl
theorem bp_bd1 {v : ℚ} (h1 : 305/100 < v) (h2 : v ≤ 33/10) :
    97 ≤ battery_percentage v ∧ battery_percentage v ≤ 100 := by
  rw [bp_br1 h1 h2]
  exact pyRound_le_bracket (by push_cast; ring_nf; linarith) (by push_cast; ring_nf; linarith)

theorem bp_bd2 {v : ℚ} (h1 : 294/100 < v) (h2 : v ≤ 305/100) :
    91 ≤ battery_percentage v ∧ battery_percentage v ≤ 97 := by
  rw [bp_br2 h1 h2]
  exact pyRound_le_bracket (by push_cast; ring_nf; linarith) (by push_cast; ring_nf; linarith)

theorem bp_bd3 {v : ℚ} (h1 : 29/10 < v) (h2 : v ≤ 294/100) :
    75 ≤ battery_percentage v ∧ battery_percentage v ≤ 91 := by
  rw [bp_br3 h1 h2]
  exact pyRound_le_bracket (by push_cast; ring_nf; linarith) (by push_cast; ring_nf; linarith)

theorem bp_bd4 {v : ℚ} (h1 : 285/100 < v) (h2 : v ≤ 29/10) :
    25 ≤ battery_percentage v ∧ battery_percentage v ≤ 75 := by
  rw [bp_br4 h1 h2]
  exact pyRound_le_bracket (by push_cast; ring_nf; linarith) (by push_cast; ring_nf; linarith)

theorem bp_bd5 {v : ℚ} (h1 : 28/10 < v) (h2 : v ≤ 285/100) :
    17 ≤ battery_percentage v ∧ battery_percentage v ≤ 25 := by
  rw [bp_br5 h1 h2]
  exact pyRound_le_bracket (by push_cast; ring_nf; linarith) (by push_cast; ring_nf; linarith)

theorem bp_bd6 {v : ℚ} (h1 : 26/10 < v) (h2 : v ≤ 28/10) :
    0 ≤ battery_percentage v ∧ battery_percentage v ≤ 17 := by
  rw [bp_br6 h1 h2]
  exact pyRound_le_bracket (by push_cast; ring_nf; linarith) (by push_cast; ring_nf; linarith)

theorem bp_anchor_305 : battery_percentage (305/100) = 97 := by
  rw [bp_br2 (by norm_num) (le_refl _),
    show (91 + (305/100 - 294/100) / (305/100 - 294/100) * (97 - 91) : ℚ) = ((97 : ℤ) : ℚ) by
      norm_num,
    pyRound_intCast]

theorem bp_anchor_294 : battery_percentage (294/100) = 91 := by
  rw [bp_br3 (by norm_num) (le_refl _),
    show (75 + (294/100 - 29/10) / (294/100 - 29/10) * (91 - 75) : ℚ) = ((91 : ℤ) : ℚ) by
      norm_num,
    pyRound_intCast]

theorem bp_anchor_29 : battery_percentage (29/10) = 75 := by
  rw [bp_br4 (by norm_num) (le_refl _),
    show (25 + (29/10 - 285/100) / (29/10 - 285/100) * (75 - 25) : ℚ) = ((75 : ℤ) : ℚ) by
      norm_num,
    pyRound_intCast]

theorem bp_anchor_285 : battery_percentage (285/100) = 25 := by
  rw [bp_br5 (by norm_num) (le_refl _),
    show (17 + (285/100 - 28/10) / (285/100 - 28/10) * (25 - 17) : ℚ) = ((25 : ℤ) : ℚ) by
      norm_num,
    pyRound_intCast]

theorem bp_anchor_28 : battery_percentage (28/10) = 17 := by
  rw [bp_br6 (by norm_num) (le_refl _),
    show (0 + (28/10 - 26/10) / (28/10 - 26/10) * (17 - 0) : ℚ) = ((17 : ℤ) : ℚ) by
      norm_num,
    pyRound_intCast]
theorem bp_ge_305 {v : ℚ} (h1 : 305/100 ≤ v) (h2 : v ≤ 33/10) :
    97 ≤ battery_percentage v := by
  rcases eq_or_lt_of_le h1 with he | hlt
  · rw [← he, bp_anchor_305]
  · exact (bp_bd1 hlt h2).1

theorem bp_ge_294 {v : ℚ} (h1 : 294/100 ≤ v) (h2 : v ≤ 33/10) :
    91 ≤ battery_percentage v := by
  rcases eq_or_lt_of_le h1 with he | hlt
  · rw [← he, bp_anchor_294]
  · by_cases hb : v ≤ 305/100
    · exact (bp_bd2 hlt hb).1
    · push_neg at hb
      linarith [(bp_bd1 hb h2).1]

theorem bp_ge_29 {v : ℚ} (h1 : 29/10 ≤ v) (h2 : v ≤ 33/10) :
    75 ≤ battery_percentage v := by
  rcases eq_or_lt_of_le h1 with he | hlt
  · rw [← he, bp_anchor_29]
  · by_cases hb : v ≤ 294/100
    · exact (bp_bd3 hlt hb).1
    · push_neg at hb
      linarith [bp_ge_294 (le_of_lt hb) h2]

theorem bp_ge_285 {v : ℚ} (h1 : 285/100 ≤ v) (h2 : v ≤ 33/10) :
    25 ≤ battery_percentage v := by
  rcases eq_or_lt_of_le h1 with he | hlt
  · rw [← he, bp_anchor_285]
  · by_cases hb : v ≤ 29/10
    · exact (bp_bd4 hlt hb).1
    · push_neg at hb
      linarith [bp_ge_29 (le_of_lt hb) h2]

theorem bp_ge_28 {v : ℚ} (h1 : 28/10 ≤ v) (h2 : v ≤ 33/10) :
    17 ≤ battery_percentage v := by
  rcases eq_or_lt_of_le h1 with he | hlt
  · rw [← he, bp_anchor_28]
  · by_cases hb : v ≤ 285/100
    · exact (bp_bd5 hlt hb).1
    · push_neg at hb
      linarith [bp_ge_285 (le_of_lt hb) h2]

theorem bp_ge_26 {v : ℚ} (h1 : 26/10 ≤ v) (h2 : v ≤ 33/10) :
    0 ≤ battery_percentage v := by
  rcases eq_or_lt_of_le h1 with he | hlt
  · rw [← he, bp_low (le_refl _)]
  · by_cases hb : v ≤ 28/10
    · exact (bp_bd6 hlt hb).1
    · push_neg at hb
      linarith [bp_ge_28 (le_of_lt hb) h2]

theorem bp_mono {u v : ℚ} (h26 : 26/10 ≤ u) (huv : u ≤ v) (h33 : v ≤ 33/10) :
    battery_percentage u ≤ battery_percentage v := by
  rcases eq_or_lt_of_le h26 with he | hlt
  · rw [← he, bp_low (le_refl _)]
    exact bp_ge_26 (by linarith) h33
  · by_cases hu6 : u ≤ 28/10
    · by_cases hv6 : v ≤ 28/10
      · rw [bp_br6 hlt hu6, bp_br6 (by linarith) hv6]
        exact pyRound_mono (by ring_nf; linarith)
      · push_neg at hv6
        linarith [(bp_bd6 hlt hu6).2, bp_ge_28 (le_of_lt hv6) h33]
    · push_neg at hu6
      by_cases hu5 : u ≤ 285/100
      · by_cases hv5 : v ≤ 285/100
        · rw [bp_br5 hu6 hu5, bp_br5 (by linarith) hv5]
          exact pyRound_mono (by ring_nf; linarith)
        · push_neg at hv5
          linarith [(bp_bd5 hu6 hu5).2, bp_ge_285 (le_of_lt hv5) h33]
      · push_neg at hu5
        by_cases hu4 : u ≤ 29/10
        · by_cases hv4 : v ≤ 29/10
          · rw [bp_br4 hu5 hu4, bp_br4 (by linarith) hv4]
            exact pyRound_mono (by ring_nf; linarith)
          · push_neg at hv4
            linarith [(bp_bd4 hu5 hu4).2, bp_ge_29 (le_of_lt hv4) h33]
        · push_neg at hu4
          by_cases hu3 : u ≤ 294/100
          · by_cases hv3 : v ≤ 294/100
            · rw [bp_br3 hu4 hu3, bp_br3 (by linarith) hv3]
              exact pyRound_mono (by ring_nf; linarith)
            · push_neg at hv3
              linarith [(bp_bd3 hu4 hu3).2, bp_ge_294 (le_of_lt hv3) h33]
          · push_neg at hu3
            by_cases hu2 : u ≤ 305/100
            · by_cases hv2 : v ≤ 305/100
              · rw [bp_br2 hu3 hu2, bp_br2 (by linarith) hv2]
                exact pyRound_mono (by ring_nf; linarith)
              · push_neg at hv2
                linarith [(bp_bd2 hu3 hu2).2, bp_ge_305 (le_of_lt hv2) h33]
            · push_neg at hu2
              rw [bp_br1 hu2 (by linarith), bp_br1 (by linarith) h33]
              exact pyRound_mono (by ring_nf; linarith)
/-- C3: the battery curve is total and deterministic (it is a function on
ℚ), returns 100 at and above 3.3 V, 0 at and below 2.6 V, matches every
tabulated anchor exactly, is monotonically non-decreasing on [2.6, 3.3],
and is the rounded linear interpolation on each half-open bracket
(V1, V2]. -/
theorem c3_battery_curve_spec :
    (∀ v : ℚ, 33/10 ≤ v → battery_percentage v = 100) ∧
    (∀ v : ℚ, v ≤ 26/10 → battery_percentage v = 0) ∧
    (battery_percentage (33/10) = 100 ∧ battery_percentage (305/100) = 97 ∧
     battery_percentage (294/100) = 91 ∧ battery_percentage (29/10) = 75 ∧
     battery_percentage (285/100) = 25 ∧ battery_percentage (28/10) = 17 ∧
     battery_percentage (26/10) = 0) ∧
    (∀ u v : ℚ, 26/10 ≤ u → u ≤ v → v ≤ 33/10 →
      battery_percentage u ≤ battery_percentage v) ∧
    (∀ v : ℚ, 305/100 < v → v ≤ 33/10 →
      battery_percentage v = pyRound (97 + (v - 305/100) / (33/10 - 305/100) * (100 - 97))) ∧
    (∀ v : ℚ, 294/100 < v → v ≤ 305/100 →
      battery_percentage v = pyRound (91 + (v - 294/100) / (305/100 - 294/100) * (97 - 91))) ∧
    (∀ v : ℚ, 29/10 < v → v ≤ 294/100 →
      battery_percentage v = pyRound (75 + (v - 29/10) / (294/100 - 29/10) * (91 - 75))) ∧
    (∀ v : ℚ, 285/100 < v → v ≤ 29/10 →
      battery_percentage v = pyRound (25 + (v - 285/100) / (29/10 - 285/100) * (75 - 25))) ∧
    (∀ v : ℚ, 28/10 < v → v ≤ 285/100 →
      battery_percentage v = pyRound (17 + (v - 28/10) / (285/100 - 28/10) * (25 - 17))) ∧
    (∀ v : ℚ, 26/10 < v → v ≤ 28/10 →
      battery_percentage v = pyRound (0 + (v - 26/10) / (28/10 - 26/10) * (17 - 0))) :=
  ⟨fun _ h => bp_high h, fun _ h => bp_low h,
   ⟨bp_high (le_refl _), bp_anchor_305, bp_anchor_294, bp_anchor_29,
    bp_anchor_285, bp_anchor_28, bp_low (le_refl _)⟩,
   fun _ _ h1 h2 h3 => bp_mono h1 h2 h3,
   fun _ h1 h2 => bp_br1 h1 h2, fun _ h1 h2 => bp_br2 h1 h2,
   fun _ h1 h2 => bp_br3 h1 h2, fun _ h1 h2 => bp_br4 h1 h2,
   fun _ h1 h2 => bp_br5 h1 h2, fun _ h1 h2 => bp_br6 h1 h2⟩

/-- Witness for C3: the clamps and monotonicity applied at concrete
voltages. -/
theorem c3_battery_curve_spec_witness :
    battery_percentage 4 = 100 ∧ battery_percentage 2 = 0 ∧
    battery_percentage (27/10) ≤ battery_percentage (31/10) :=
  ⟨c3_battery_curve_spec.1 4 (by norm_num),
   c3_battery_curve_spec.2.1 2 (by norm_num),
   c3_battery_curve_spec.2.2.2.1 (27/10) (31/10) (by norm_num) (by norm_num) (by norm_num)⟩

/-- C9: decoding is a pure transformation — two advertisements with
equal address, manufacturer entries and service UUIDs yield identical
outcomes, with no dependence on prior state (the embedding threads no
state at all). -/
theorem c9_pure_transformation :
    ∀ a1 a2 : Advertisement, a1.address = a2.address →
      a1.manufacturerEntries = a2.manufacturerEntries →
      a1.serviceUuids = a2.serviceUuids →
      startUpdate a1 = startUpdate a2 := by
  intro a1 a2 h1 h2 h3
  cases a1
  cases a2
  cases h1
  cases h2
  cases h3
  rfl

/-- Witness for C9: two structurally equal advertisements decode
identically. -/
theorem c9_pure_transformation_witness :
    startUpdate ⟨"aa:bb", [(256, [7])], ["u"]⟩ =
      startUpdate ⟨"aa:bb", [(256, [7])], ["u"]⟩ :=
  c9_pure_transformation ⟨"aa:bb", [(256, [7])], ["u"]⟩
    ⟨"aa:bb", [(256, [7])], ["u"]⟩ rfl rfl rfl

/-- C7: an advertisement with no manufacturer data yields no reading and
only the initial verbose log; an unrecognized company id with no
Michelin service UUID yields no reading and a low-severity (debug) log,
and neither case faults. -/
theorem c7_no_reading_cases :
    (∀ (addr : String) (uuids : List String),
      startUpdate ⟨addr, [], uuids⟩ = .ok ⟨none, [.debug], none⟩) ∧
    (∀ (addr : String) (cid : Nat) (pay : List Nat)
        (rest : List (Nat × List Nat)) (uuids : List String),
      michelinUuid ∉ uuids → cid ≠ 256 → cid ≠ 2088 →
      startUpdate ⟨addr, (cid, pay) :: rest, uuids⟩ =
        .ok ⟨none, [.debug, .debug], none⟩) := by
  constructor
  · intro addr uuids
    rfl
  · intro addr cid pay rest uuids hu h256 h2088
    unfold startUpdate
    simp only [List.elem_eq_mem] at *
    rw [if_neg hu, if_neg h256, if_neg h2088]

/-- Witness for C7: a concrete unrecognized company id. -/
theorem c7_no_reading_cases_witness :
    startUpdate ⟨"aa", [(999, [1, 2, 3])], ["x"]⟩ =
      .ok ⟨none, [.debug, .debug], none⟩ :=
  c7_no_reading_cases.2 "aa" 999 [1, 2, 3] [] ["x"]
    (by simp [michelinUuid]) (by decide) (by decide)
/-- C4: a 16-byte TypeA payload is unpacked as little-endian signed
32-bit pressure and temperature, a signed byte battery and a boolean
alarm from bytes[6:16], scaled by 1/100000 and 1/100, with battery
passed through and no voltage; in particular the packed example payload
decodes to pressure 2.5, temperature 25.0, battery 80, alarm true. -/
theorem c4_typeA_decode :
    (∀ b0 b1 b2 b3 b4 b5 b6 b7 b8 b9 b10 b11 b12 b13 b14 b15 : Nat,
      processTpmsA [b0, b1, b2, b3, b4, b5, b6, b7, b8, b9, b10, b11, b12, b13, b14, b15] =
        (some ⟨some ((toSigned32 (le32 b6 b7 b8 b9) : ℚ) / 100000),
               some (toSigned8 b14),
               some ((toSigned32 (le32 b10 b11 b12 b13) : ℚ) / 100),
               some (decide (b15 ≠ 0)),
               none⟩, [.debug])) ∧
    processTpmsA [0, 0, 0, 0, 0, 0, 144, 208, 3, 0, 196, 9, 0, 0, 80, 1] =
      (some ⟨some (5/2), some 80, some 25, some true, none⟩, [.debug]) := by
  constructor
  · intro b0 b1 b2 b3 b4 b5 b6 b7 b8 b9 b10 b11 b12 b13 b14 b15
    simp [processTpmsA, updateSensors]
  · simp [processTpmsA, updateSensors, toSigned32, toSigned8, le32]
    norm_num
/-- C5: a 5-byte TypeB payload with a 16-bit company id decodes to
voltage = (high byte of the id, i.e. the low byte after the byte swap) / 10,
temperature = two's-complement byte 0, pressure = round(((big-endian
16-bit at bytes 1..2) − 145) / 10 × 0.0689476, 3), and battery equal to
the battery curve at that voltage. -/
theorem c5_typeB_decode :
    ∀ b0 b1 b2 b3 b4 companyId : Nat, companyId < 65536 →
      processTpmsB [b0, b1, b2, b3, b4] companyId =
        (some ⟨some (pyRound3 (((b1 * 256 + b2 : ℕ) - 145 : ℚ) / 10 * (689476 / 10000000))),
               some (battery_percentage ((companyId / 256 : ℕ) / 10 : ℚ)),
               some (toSigned8 b0),
               none,
               some (((companyId / 256 : ℕ) : ℚ) / 10)⟩, [.debug]) := by
  intro b0 b1 b2 b3 b4 companyId hlt
  have hs : swappedCompHex companyId = companyId / 256 := by
    unfold swappedCompHex
    omega
  simp [processTpmsB, updateSensors, hs]

/-- Witness for C5: the TypeB decode equation at a concrete payload and
company id. -/
theorem c5_typeB_decode_witness :
    processTpmsB [10, 1, 44, 0, 0] 2088 =
      (some ⟨some (pyRound3 (((1 * 256 + 44 : ℕ) - 145 : ℚ) / 10 * (689476 / 10000000))),
             some (battery_percentage ((2088 / 256 : ℕ) / 10 : ℚ)),
             some (toSigned8 10),
             none,
             some (((2088 / 256 : ℕ) : ℚ) / 10)⟩, [.debug]) :=
  c5_typeB_decode 10 1 44 0 0 2088 (by decide)
theorem pyRound2_eq_int (q : ℚ) (n : ℤ) (h : q * 100 = (n : ℚ)) :
    pyRound2 q = (n : ℚ) / 100 := by
  unfold pyRound2
  rw [h, pyRound_intCast]

theorem pyRound3_eq_int (q : ℚ) (n : ℤ) (h : q * 1000 = (n : ℚ)) :
    pyRound3 q = (n : ℚ) / 1000 := by
  unfold pyRound3
  rw [h, pyRound_intCast]
/-- C6: Michelin (TypeC) payloads with product byte 0x01 and a known
frame type of the right length decode to temperature = byte2 − 60,
voltage = round(byte3/100 + 1.0, 2), battery from the battery curve, and
pressure = max(0, round(raw/1000, 2) − 1) from the little-endian field
at bytes[4:6] (frames 0x04, 0x0c) or bytes[12:14] (frame 0x05), with no
pressure for frames 0x02 and 0x06; an unknown frame type gives an
informational log and no reading; the concrete 0x04 example decodes to
temperature 30, voltage 3.30, pressure 1.0, battery 100. -/
theorem c6_typeC_decode :
    (∀ b2 b3 b4 b5 b6 b7 b8 b9 b10 b11 : Nat,
      processTpmsC [1, 2, b2, b3, b4, b5, b6, b7, b8, b9, b10, b11] =
        .ok (some ⟨none,
              some (battery_percentage (pyRound2 ((b3 : ℚ) / 100 + 1))),
              some ((b2 : ℚ) - 60),
              none,
              some (pyRound2 ((b3 : ℚ) / 100 + 1))⟩, [.debug])) ∧
    (∀ b2 b3 b4 b5 b6 b7 b8 b9 b10 b11 b12 b13 : Nat,
      processTpmsC [1, 4, b2, b3, b4, b5, b6, b7, b8, b9, b10, b11, b12, b13] =
        .ok (some ⟨some (max 0 (pyRound2 (((b4 + 256 * b5 : ℕ) : ℚ) / 1000) - 1)),
              some (battery_percentage (pyRound2 ((b3 : ℚ) / 100 + 1))),
              some ((b2 : ℚ) - 60),
              none,
              some (pyRound2 ((b3 : ℚ) / 100 + 1))⟩, [.debug])) ∧
    (∀ b2 b3 b4 b5 b6 b7 b8 b9 b10 b11 b12 b13 : Nat,
      processTpmsC [1, 5, b2, b3, b4, b5, b6, b7, b8, b9, b10, b11, b12, b13] =
        .ok (some ⟨some (max 0 (pyRound2 (((b12 + 256 * b13 : ℕ) : ℚ) / 1000) - 1)),
              some (battery_percentage (pyRound2 ((b3 : ℚ) / 100 + 1))),
              some ((b2 : ℚ) - 60),
              none,
              some (pyRound2 ((b3 : ℚ) / 100 + 1))⟩, [.debug])) ∧
    (∀ b2 b3 b4 b5 b6 b7 b8 b9 b10 b11 : Nat,
      processTpmsC [1, 6, b2, b3, b4, b5, b6, b7, b8, b9, b10, b11] =
        .ok (some ⟨none,
              some (battery_percentage (pyRound2 ((b3 : ℚ) / 100 + 1))),
              some ((b2 : ℚ) - 60),
              none,
              some (pyRound2 ((b3 : ℚ) / 100 + 1))⟩, [.debug])) ∧
    (∀ b2 b3 b4 b5 b6 b7 b8 b9 b10 b11 b12 b13 b14 b15 b16 : Nat,
      processTpmsC [1, 12, b2, b3, b4, b5, b6, b7, b8, b9, b10, b11, b12, b13, b14, b15, b16] =
        .ok (some ⟨some (max 0 (pyRound2 (((b4 + 256 * b5 : ℕ) : ℚ) / 1000) - 1)),
              some (battery_percentage (pyRound2 ((b3 : ℚ) / 100 + 1))),
              some ((b2 : ℚ) - 60),
              none,
              some (pyRound2 ((b3 : ℚ) / 100 + 1))⟩, [.debug])) ∧
    (∀ (data : List Nat) (f : Nat), data[0]? = some 1 → data[1]? = some f →
      f ≠ 2 → f ≠ 4 → f ≠ 5 → f ≠ 6 → f ≠ 12 →
      processTpmsC data = .ok (none, [.debug, .info])) ∧
    processTpmsC [1, 4, 90, 230, 208, 7, 0, 0, 0, 0, 0, 0, 0, 0] =
      .ok (some ⟨some 1, some 100, some 30, none, some (33/10)⟩, [.debug]) := by
  refine ⟨?_, ?_, ?_, ?_, ?_, ?_, ?_⟩
  · intro b2 b3 b4 b5 b6 b7 b8 b9 b10 b11
    simp [processTpmsC, byteAt, updateSensors]
  · intro b2 b3 b4 b5 b6 b7 b8 b9 b10 b11 b12 b13
    simp [processTpmsC, byteAt, updateSensors, le16]
  · intro b2 b3 b4 b5 b6 b7 b8 b9 b10 b11 b12 b13
    simp [processTpmsC, byteAt, updateSensors, le16]
  · intro b2 b3 b4 b5 b6 b7 b8 b9 b10 b11
    simp [processTpmsC, byteAt, updateSensors]
  · intro b2 b3 b4 b5 b6 b7 b8 b9 b10 b11 b12 b13 b14 b15 b16
    simp [processTpmsC, byteAt, updateSensors, le16]
  · intro data f h0 h1 hf2 hf4 hf5 hf6 hf12
    simp [processTpmsC, byteAt, h0, h1, hf2, hf4, hf5, hf6, hf12]
  · have hvolt : pyRound2 ((230 : ℚ) / 100 + 1) = 33/10 := by
      rw [pyRound2_eq_int _ 330 (by norm_num)]
      norm_num
    have hpress : pyRound2 ((2000 : ℚ) / 1000) = 2 := by
      rw [pyRound2_eq_int _ 200 (by norm_num)]
      norm_num
    simp [processTpmsC, byteAt, updateSensors, le16]
    rw [hvolt, hpress]
    refine ⟨by norm_num, bp_high le_rfl, rfl⟩

/-- Witness for C6: an unknown Michelin frame type (9) yields an
informational log and no reading. -/
theorem c6_typeC_decode_witness :
    processTpmsC [1, 9, 0] = .ok (none, [.debug, .info]) :=
  c6_typeC_decode.2.2.2.2.2.1 [1, 9, 0] 9 rfl rfl (by decide) (by decide)
    (by decide) (by decide) (by decide)
set_option maxHeartbeats 1600000 in
/-- C8: fields a variant does not populate are absent from the emitted
reading: TypeA has no voltage, TypeB and TypeC no alarm, and TypeC
frames 0x02 and 0x06 no pressure. -/
theorem c8_absent_fields :
    (∀ (data : List Nat) (r : Reading) (logs : List LogLevel),
      processTpmsA data = (some r, logs) → r.voltage = none) ∧
    (∀ (data : List Nat) (cid : Nat) (r : Reading) (logs : List LogLevel),
      processTpmsB data cid = (some r, logs) → r.alarm = none) ∧
    (∀ (data : List Nat) (r : Reading) (logs : List LogLevel),
      processTpmsC data = .ok (some r, logs) → r.alarm = none) ∧
    (∀ (data : List Nat) (r : Reading) (logs : List LogLevel),
      (data[1]? = some 2 ∨ data[1]? = some 6) →
      processTpmsC data = .ok (some r, logs) → r.pressure = none) := by
  refine ⟨?_, ?_, ?_, ?_⟩
  · intro data r logs h
    unfold processTpmsA at h
    split at h <;> simp_all [updateSensors]
    obtain ⟨h1, -⟩ := h
    subst h1
    rfl
  · intro data cid r logs h
    unfold processTpmsB at h
    split at h <;> simp_all [updateSensors]
    obtain ⟨h1, -⟩ := h
    subst h1
    rfl
  · intro data r logs h
    unfold processTpmsC at h
    repeat' split at h
    all_goals simp_all [updateSensors]
    all_goals (obtain ⟨h1, -⟩ := h; subst h1; rfl)
  · intro data r logs hf h
    have hb1 : byteAt data 1 = .ok 2 ∨ byteAt data 1 = .ok 6 := by
      rcases hf with hf | hf
      · exact Or.inl (by simp [byteAt, hf])
      · exact Or.inr (by simp [byteAt, hf])
    unfold processTpmsC at h
    cases h0 : byteAt data 0 with
    | error e =>
      rw [h0] at h
      simp at h
    | ok productType =>
      rw [h0] at h
      dsimp only at h
      split at h
      · simp at h
      · rcases hb1 with hb | hb <;> rw [hb] at h <;> dsimp only at h <;>
          repeat' split at h
        all_goals simp_all [updateSensors]
        all_goals (obtain ⟨h1, -⟩ := h; subst h1; rfl)

/-- Witness for C8: the TypeA reading decoded from an all-zero payload
carries no voltage field. -/
theorem c8_absent_fields_witness :
    (⟨some 0, some 0, some 0, some false, none⟩ : Reading).voltage = none :=
  c8_absent_fields.1 [0, 0, 0, 0, 0, 0, 0, 0, 0, 0, 0, 0, 0, 0, 0, 0]
    ⟨some 0, some 0, some 0, some false, none⟩ [.debug]
    (by simp [processTpmsA, updateSensors, toSigned32, toSigned8, le32])
/-- C1 (amended): dispatch priority of `_start_update` — the Michelin
service UUID routes to the TypeB voltage/percentage decoder, else
company id 256 to TypeA, else company id 2088 to the TypeC (Michelin)
family decoder, else no decoder runs. -/
theorem c1_routing_amended :
    ∀ (addr : String) (cid : Nat) (pay : List Nat)
      (rest : List (Nat × List Nat)) (uuids : List String),
      (michelinUuid ∈ uuids →
        startUpdate ⟨addr, (cid, pay) :: rest, uuids⟩ =
          .ok ⟨(processTpmsB pay cid).1, .debug :: (processTpmsB pay cid).2,
               some "SYTPMS TypeB"⟩) ∧
      (michelinUuid ∉ uuids → cid = 256 →
        startUpdate ⟨addr, (cid, pay) :: rest, uuids⟩ =
          .ok ⟨(processTpmsA pay).1, .debug :: (processTpmsA pay).2,
               some "TPMSII TypeA"⟩) ∧
      (michelinUuid ∉ uuids → cid = 2088 →
        startUpdate ⟨addr, (cid, pay) :: rest, uuids⟩ =
          Except.map (fun res => ⟨res.1, .debug :: res.2, some "Michelin"⟩)
            (processTpmsC pay)) ∧
      (michelinUuid ∉ uuids → cid ≠ 256 → cid ≠ 2088 →
        startUpdate ⟨addr, (cid, pay) :: rest, uuids⟩ =
          .ok ⟨none, [.debug, .debug], none⟩) := by
  intro addr cid pay rest uuids
  refine ⟨?_, ?_, ?_, ?_⟩
  · intro hu
    simp [startUpdate, hu]
  · intro hu h256
    subst h256
    simp [startUpdate, hu]
  · intro hu h2088
    subst h2088
    cases hc : processTpmsC pay <;> simp [startUpdate, hu, hc, Except.map]
  · intro hu h256 h2088
    simp [startUpdate, hu, h256, h2088]
/-- Witness for C1: the dispatch equations applied to a concrete
advertisement with an unrecognized company id. -/
theorem c1_routing_amended_witness :
    startUpdate ⟨"aa", [(999, [5])], []⟩ = .ok ⟨none, [.debug, .debug], none⟩ :=
  (c1_routing_amended "aa" 999 [5] [] []).2.2.2 (by simp) (by decide) (by decide)

/-- Counterexample to C1 as stated: with the Michelin service UUID
advertised, the dispatcher routes to the TypeB voltage/percentage
decoder (manufacturer "SYTPMS TypeB"), which rejects this valid 12-byte
Michelin 0x02 frame for its length and emits no reading, while the
TypeC (Michelin) decoder accepts the same payload; conversely company
id 2088 without the UUID routes to the TypeC Michelin decoder, while
the TypeB decoder would accept the 5-byte payload. -/
theorem c1_routing_counterexample :
    startUpdate ⟨"", [(2088, [1, 2, 90, 230, 0, 0, 0, 0, 0, 0, 0, 0])], [michelinUuid]⟩ =
      .ok ⟨none, [.debug, .debug, .error], some "SYTPMS TypeB"⟩ ∧
    processTpmsC [1, 2, 90, 230, 0, 0, 0, 0, 0, 0, 0, 0] =
      .ok (some ⟨none, some 100, some 30, none, some (33/10)⟩, [.debug]) ∧
    startUpdate ⟨"", [(2088, [0, 0, 0, 0, 0])], []⟩ =
      .ok ⟨none, [.debug, .debug, .debug], some "Michelin"⟩ ∧
    (processTpmsB [0, 0, 0, 0, 0] 2088).1 =
      some ⟨some (-1), some 0, some 0, none, some (4/5)⟩ := by
  refine ⟨?_, ?_, ?_, ?_⟩
  · simp [startUpdate, processTpmsB]
  · have hvolt : pyRound2 ((230 : ℚ) / 100 + 1) = 33/10 := by
      rw [pyRound2_eq_int _ 330 (by norm_num)]
      norm_num
    simp [processTpmsC, byteAt, updateSensors]
    rw [hvolt]
    exact ⟨bp_high le_rfl, by norm_num⟩
  · simp [startUpdate, processTpmsC, byteAt]
  · simp [processTpmsB, updateSensors, toSigned8, swappedCompHex]
    refine ⟨?_, bp_low (by norm_num), by norm_num⟩
    unfold pyRound3
    rw [show ((-145 : ℚ) / 10 * (689476 / 10000000) * 1000) = (-(9997402/10000) : ℚ) by
          norm_num,
      show pyRound (-(9997402/10000) : ℚ) = -1000 from
        pyRound_eq_low (by norm_num) (by norm_num)]
    norm_num
/-- C2: the TypeA and TypeB decoders do validate the exact expected
length before touching the payload, but the TypeC (Michelin) decoder
reads `data[0]` and `data[1]` before any length check, so payloads of
length 0 or 1 (reachable via company id 2088 without the Michelin UUID)
raise an unhandled `IndexError` instead of logging an error and
emitting no reading. -/
theorem c2_length_validation :
    processTpmsC [] = .error .indexError ∧
    processTpmsC [1] = .error .indexError ∧
    (∀ (addr : String) (rest : List (Nat × List Nat)) (uuids : List String),
      michelinUuid ∉ uuids →
      startUpdate ⟨addr, (2088, []) :: rest, uuids⟩ = .error .indexError) ∧
    (∀ data : List Nat, data.length ≠ 16 →
      processTpmsA data = (none, [.debug, .error])) ∧
    (∀ (data : List Nat) (cid : Nat), data.length ≠ 5 →
      processTpmsB data cid = (none, [.debug, .error])) := by
  refine ⟨rfl, rfl, ?_, ?_, ?_⟩
  · intro addr rest uuids hu
    simp [startUpdate, hu, processTpmsC, byteAt]
  · intro data h
    unfold processTpmsA
    rw [if_pos h]
  · intro data cid h
    unfold processTpmsB
    rw [if_pos (by omega)]

/-- Witness for C2: the length checks applied at concrete short
payloads. -/
theorem c2_length_validation_witness :
    startUpdate ⟨"aa", [(2088, [])], []⟩ = .error .indexError ∧
    processTpmsA [1, 2, 3] = (none, [.debug, .error]) ∧
    processTpmsB [1, 2, 3] 256 = (none, [.debug, .error]) :=
  ⟨c2_length_validation.2.2.1 "aa" [] [] (by simp),
   c2_length_validation.2.2.2.1 [1, 2, 3] (by decide),
   c2_length_validation.2.2.2.2 [1, 2, 3] 256 (by decide)⟩

/-- C10: the TypeB decoder applies no lower clamp to pressure — the
5-byte payload with big-endian pressure field 100 < 145 decodes to the
strictly negative pressure −0.31 bar — while every pressure the TypeC
decoder emits is clamped to be non-negative by max(0, ·). -/
theorem c10_typeB_no_lower_clamp :
    ((processTpmsB [0, 0, 100, 0, 0] 256).1 =
        some ⟨some (-(31/100)), some 0, some 0, none, some (1/10)⟩ ∧
      (-(31/100) : ℚ) < 0) ∧
    (∀ (data : List Nat) (res : Option Reading × List LogLevel)
        (r : Reading) (p : ℚ),
      processTpmsC data = .ok res → res.1 = some r →
      r.pressure = some p → 0 ≤ p) := by
  refine ⟨⟨?_, by norm_num⟩, ?_⟩
  · simp [processTpmsB, updateSensors, toSigned8, swappedCompHex]
    refine ⟨?_, bp_low (by norm_num)⟩
    unfold pyRound3
    rw [show (((100 : ℚ) - 145) / 10 * (689476 / 10000000) * 1000) =
          (-(31026420/100000) : ℚ) by norm_num,
      show pyRound (-(31026420/100000) : ℚ) = -310 from
        pyRound_eq_high (by norm_num) (by norm_num)]
    norm_num
  · intro data res r p hc hr hp
    unfold processTpmsC at hc
    repeat' split at hc
    all_goals first
      | (injection hc with hc; subst hc; simp [updateSensors] at hr)
      | injection hc
    all_goals (subst hr; simp at hp)
    all_goals exact hp ▸ le_max_left 0 _

/-- Witness for C10: the clamp property applied to a concrete Michelin
frame 0x04 decode whose emitted pressure is 1. -/
theorem c10_typeB_no_lower_clamp_witness : (0 : ℚ) ≤ 1 :=
  c10_typeB_no_lower_clamp.2 [1, 4, 90, 230, 208, 7, 0, 0, 0, 0, 0, 0, 0, 0]
    (some ⟨some 1, some 100, some 30, none, some (33/10)⟩, [.debug])
    ⟨some 1, some 100, some 30, none, some (33/10)⟩ 1
    (by
      have hvolt : pyRound2 ((230 : ℚ) / 100 + 1) = 33/10 := by
        rw [pyRound2_eq_int _ 330 (by norm_num)]
        norm_num
      have hpress : pyRound2 ((2000 : ℚ) / 1000) = 2 := by
        rw [pyRound2_eq_int _ 200 (by norm_num)]
        norm_num
      simp [processTpmsC, byteAt, updateSensors, le16]
      rw [hvolt, hpress]
      refine ⟨by norm_num, bp_high le_rfl, rfl⟩)
    rfl rfl
